import Mathlib

/-!
Shallow embedding of the `@hashgraphonline/standards-agent-plugin` package
(`src/StandardsKit.ts` and `src/plugins/openconvai/OpenConvAIPlugin.ts`)
together with proofs about its behaviour.

External collaborators (the `hedera-agent-kit` runtime, the
`@hashgraphonline/standards-agent-kit` tool classes, the mirror node and
the `@hashgraph/sdk` key parsers) are represented by opaque references and
by oracle parameters describing the outcome of their calls; everything the
repository itself computes is translated directly from the TypeScript
source.
-/

namespace StandardsAgentPlugin

/-! ## Mirror-node account lookup data

`HederaMirrorNode.requestAccount(accountId)` resolves (when it does not
throw) to either `null`/`undefined` or an account record whose optional
`key` field optionally carries a `_type` string tag.  The embedding calls
that tag `keyTypeTag`. -/

/-- The `key` object of a mirror-node account record; `keyTypeTag` embeds the
optional `_type` field. -/
structure MirrorAccountKey where
  keyTypeTag : Option String
  deriving DecidableEq, Repr

/-- A mirror-node account record with its optional `key` field. -/
structure MirrorAccountInfo where
  key : Option MirrorAccountKey
  deriving DecidableEq, Repr

/-- Embeds the expression `accountInfo?.key?._type || ''` of
`StandardsKit.initialize` (optional chaining with a fallback to the empty
string; a present-but-empty tag also yields the empty string, exactly as
the JavaScript `||` does). -/
def extractKeyType (accountInfo : Option MirrorAccountInfo) : String :=
  ((accountInfo.bind MirrorAccountInfo.key).bind MirrorAccountKey.keyTypeTag).getD ""

/-- JavaScript `haystack.includes(needle)` on strings: substring containment,
embedded as infix containment on the character lists. -/
def jsIncludes (haystack needle : String) : Bool :=
  decide (needle.toList <:+: haystack.toList)

/-- The two private-key parsers used by the bootstrap
(`PrivateKey.fromStringECDSA` and `PrivateKey.fromStringED25519`). -/
inductive KeyParser where
  | ecdsa
  | ed25519
  deriving DecidableEq, Repr

/-- Embeds the classification `keyType?.toLowerCase()?.includes('ecdsa')` of
`StandardsKit.initialize`: any tag whose lower-cased form contains the
substring "ecdsa" selects the ECDSA parser, anything else (absent record,
absent key, absent or non-matching tag) selects the ED25519 parser. -/
def selectKeyParser (accountInfo : Option MirrorAccountInfo) : KeyParser :=
  if jsIncludes (extractKeyType accountInfo).toLower "ecdsa" then
    KeyParser.ecdsa
  else
    KeyParser.ed25519

/-- The result of parsing the caller's raw private-key string: which parser
was invoked and the exact string it received. -/
structure PrivateKeyInstance where
  parser : KeyParser
  input : String
  deriving DecidableEq, Repr

/-- Embeds the key-parsing step of `StandardsKit.initialize`: the selected
parser is invoked with the raw `privateKey` option verbatim. -/
def parsePrivateKey (accountInfo : Option MirrorAccountInfo)
    (privateKey : String) : PrivateKeyInstance :=
  { parser := selectKeyParser accountInfo, input := privateKey }

end StandardsAgentPlugin

namespace StandardsAgentPlugin

theorem jsIncludes_iff (haystack needle : String) :
    jsIncludes haystack needle = true ↔ needle.toList <:+: haystack.toList := by
  simp [jsIncludes]

theorem selectKeyParser_eq_ecdsa_iff (info : Option MirrorAccountInfo) :
    selectKeyParser info = KeyParser.ecdsa ↔
      "ecdsa".toList <:+: (extractKeyType info).toLower.toList := by
  unfold selectKeyParser
  by_cases h : jsIncludes (extractKeyType info).toLower "ecdsa" = true
  · rw [if_pos h]
    exact iff_of_true rfl ((jsIncludes_iff _ _).mp h)
  · rw [if_neg h]
    exact iff_of_false (by decide)
      (fun hinf => h ((jsIncludes_iff _ _).mpr hinf))

end StandardsAgentPlugin

namespace StandardsAgentPlugin

/-! ## The StandardsKit bootstrap wrapper

Embeds the `StandardsKit` class of `src/StandardsKit.ts` (the version with
the extended options bag, whose `initialize` assembles the
`HederaConversationalAgentConfig`).  External constructions are opaque
references; the outcomes of the awaited external calls
(`requestAccount`, the key parsers, `conversationalAgent.initialize`) are
oracle parameters. -/

/-- Opaque reference to a `HederaAgentKit` instance. -/
abbrev HederaKitRef := Nat

/-- Opaque reference to an `IStateManager`: either an object the caller
supplied or the `new OpenConvaiState()` default. -/
inductive StateManagerRef where
  | supplied (id : Nat)
  | defaultNew
  deriving DecidableEq, Repr

/-- Opaque reference to a host plugin object: the kit's own
`OpenConvAIPlugin` instance (built in the constructor) or any other plugin
object (caller-supplied or host-runtime core). -/
inductive HostPlugin where
  | ownOpenConvAI
  | externalRef (id : Nat)
  deriving DecidableEq, Repr

/-- Opaque reference to a `MirrorNodeConfig` object. -/
abbrev MirrorNodeConfigRef := Nat

/-- A JavaScript object field, distinguishing an absent key from a key that
is present with the value `undefined` and from a key with a real value. -/
inductive JsField (α : Type) where
  | absent
  | presentUndefined
  | value (a : α)
  deriving DecidableEq, Repr

/-- Embeds the conditional-spread idiom
`...(x !== undefined && \x7b x \x7d)`: the key is present exactly when the
option was supplied. -/
def JsField.ofSpread {α : Type} : Option α → JsField α
  | some a => JsField.value a
  | none => JsField.absent

/-- Whether the key is present on the object at all (a key holding
`undefined` is still present, e.g. for the `in` operator). -/
def JsField.isKeyPresent {α : Type} : JsField α → Bool
  | JsField.absent => false
  | JsField.presentUndefined => true
  | JsField.value _ => true

/-- One entry of the `chatHistory` argument of `processMessage`. -/
structure ChatMessage where
  msgType : String
  content : String
  deriving DecidableEq, Repr

/-- The host conversational agent's response shape. -/
structure AgentResponse where
  output : String
  deriving DecidableEq, Repr

/-- The `StandardsKitOptions` bag.  Required string fields are plain
strings (the empty string doubles for a missing/absent value, matching the
falsiness check in the source); optional fields are `Option`s where `none`
means the caller did not supply the field. -/
structure StandardsKitOptions where
  accountId : String
  privateKey : String
  network : Option String
  openAIApiKey : String
  openAIModelName : Option String
  verbose : Option Bool
  operationalMode : Option String
  userAccountId : Option String
  customSystemMessagePreamble : Option String
  customSystemMessagePostamble : Option String
  additionalPlugins : Option (List HostPlugin)
  stateManager : Option StateManagerRef
  scheduleUserTransactionsInBytesMode : Option Bool
  mirrorNodeConfig : Option MirrorNodeConfigRef
  disableLogging : Option Bool
  deriving DecidableEq, Repr

/-- The `defaultSystemMessage` template literal of
`StandardsKit.initialize`, with the account identifier interpolated. -/
def defaultSystemMessage (accountId : String) : String :=
  "You are a helpful assistant managing Hedera HCS-10 connections and messages.\n" ++
  "You have access to tools for registering agents, finding registered agents, initiating connections, listing active connections, sending messages over connections, and checking for new messages.\n\n" ++
  "*** IMPORTANT CONTEXT ***\n" ++
  "You are currently operating as agent: " ++ accountId ++ "\n" ++
  "When users ask about \"my profile\", \"my account\", \"my connections\", etc., use this account ID: " ++ accountId ++ "\n\n" ++
  "Remember the connection numbers when listing connections, as users might refer to them."

/-- The `appConfig` object inside `pluginConfig`. -/
structure PluginAppConfig where
  stateManager : StateManagerRef
  deriving DecidableEq, Repr

/-- The `pluginConfig` object of the agent configuration. -/
structure AgentPluginConfig where
  plugins : List HostPlugin
  appConfig : PluginAppConfig
  deriving DecidableEq, Repr

/-- The assembled `HederaConversationalAgentConfig` object.  Fields built
by conditional spread (and the always-written shorthand `userAccountId`)
are `JsField`s so that key presence is part of the model. -/
structure AgentConfig where
  pluginConfig : AgentPluginConfig
  openAIApiKey : String
  openAIModelName : String
  verbose : Bool
  operationalMode : String
  userAccountId : JsField String
  customSystemMessagePreamble : String
  customSystemMessagePostamble : JsField String
  scheduleUserTransactionsInBytesMode : JsField Bool
  mirrorNodeConfig : JsField MirrorNodeConfigRef
  disableLogging : JsField Bool
  deriving DecidableEq, Repr

/-- The `ServerSigner` constructed from the parsed key. -/
structure ServerSigner where
  accountId : String
  privateKeyInstance : PrivateKeyInstance
  network : String
  deriving DecidableEq, Repr

/-- The constructed `HederaConversationalAgent`, recorded with the signer
and configuration it was constructed from. -/
structure ConversationalAgentRef where
  signer : ServerSigner
  config : AgentConfig
  deriving DecidableEq, Repr

/-- The mutable fields of a `StandardsKit` instance. -/
structure KitState where
  options : StandardsKitOptions
  plugin : HostPlugin
  stateManager : StateManagerRef
  conversationalAgent : Option ConversationalAgentRef
  deriving DecidableEq, Repr

/-- Embeds the `StandardsKit` constructor: stores the options, eagerly
builds the plugin instance and the state manager
(`options.stateManager || new OpenConvaiState()`), and leaves the
conversational agent unset. -/
def mkStandardsKit (opts : StandardsKitOptions) : KitState :=
  { options := opts
    plugin := HostPlugin.ownOpenConvAI
    stateManager := opts.stateManager.getD StateManagerRef.defaultNew
    conversationalAgent := none }

/-- Externally observable steps taken by `StandardsKit.initialize`, in
order. -/
inductive KitEvent where
  | mirrorNodeConstructed (network : String)
  | accountLookup (accountId : String)
  | privateKeyParsed (k : PrivateKeyInstance)
  | signerConstructed (s : ServerSigner)
  | agentConstructed
  | agentInitStarted
  deriving DecidableEq, Repr

/-- Outcomes of the external calls awaited by `StandardsKit.initialize`:
the mirror-node lookup (which can reject), the chosen key parser (which
can throw on a malformed secret), `getAllHederaCorePlugins()`, and the
host agent's own initialization. -/
structure KitOracles where
  mirrorResult : Except String (Option MirrorAccountInfo)
  keyParseError : Option String
  corePlugins : List HostPlugin
  agentInitError : Option String

/-- Embeds the construction of the `agentConfig` object literal in
`StandardsKit.initialize` (`ownPlugin` is `this.plugin`, `stateManager` is
`this.stateManager`). -/
def assembleAgentConfig (opts : StandardsKitOptions) (ownPlugin : HostPlugin)
    (stateManager : StateManagerRef) (corePlugins : List HostPlugin) : AgentConfig :=
  { pluginConfig :=
      { plugins := ownPlugin :: (opts.additionalPlugins.getD [] ++ corePlugins)
        appConfig := { stateManager := stateManager } }
    openAIApiKey := opts.openAIApiKey
    openAIModelName := opts.openAIModelName.getD "gpt-4o"
    verbose := opts.verbose.getD false
    operationalMode := opts.operationalMode.getD "autonomous"
    userAccountId :=
      match opts.userAccountId with
      | some v => JsField.value v
      | none => JsField.presentUndefined
    customSystemMessagePreamble :=
      match opts.customSystemMessagePreamble with
      | some s => if s = "" then defaultSystemMessage opts.accountId else s
      | none => defaultSystemMessage opts.accountId
    customSystemMessagePostamble := JsField.ofSpread opts.customSystemMessagePostamble
    scheduleUserTransactionsInBytesMode :=
      JsField.ofSpread opts.scheduleUserTransactionsInBytesMode
    mirrorNodeConfig := JsField.ofSpread opts.mirrorNodeConfig
    disableLogging := JsField.ofSpread opts.disableLogging }

/-- The result of one `StandardsKit.initialize()` call: the instance state
afterwards, the externally observable events in order, and the promise
outcome (`Except.error` embeds a rejected promise, carrying the thrown
error's message). -/
structure InitOutcome where
  state : KitState
  events : List KitEvent
  result : Except String Unit
  deriving Repr

/-- Embeds `StandardsKit.initialize()`.  Follows the source statement by
statement: the credential check happens before the mirror node object is
created; the conversational agent is assigned to the instance field before
its own `initialize()` is awaited; the outer try/catch re-throws every
failure unchanged after logging. -/
def kitInit (k : KitState) (o : KitOracles) : InitOutcome :=
  let opts := k.options
  if opts.accountId = "" ∨ opts.privateKey = "" then
    { state := k
      events := []
      result := Except.error "Account ID and private key are required" }
  else
    let network := opts.network.getD "testnet"
    let ev0 := [KitEvent.mirrorNodeConstructed network,
                KitEvent.accountLookup opts.accountId]
    match o.mirrorResult with
    | Except.error e => { state := k, events := ev0, result := Except.error e }
    | Except.ok accountInfo =>
      match o.keyParseError with
      | some e => { state := k, events := ev0, result := Except.error e }
      | none =>
        let pk := parsePrivateKey accountInfo opts.privateKey
        let signer : ServerSigner :=
          { accountId := opts.accountId, privateKeyInstance := pk, network := network }
        let config := assembleAgentConfig opts k.plugin k.stateManager o.corePlugins
        let agent : ConversationalAgentRef := { signer := signer, config := config }
        let k' := { k with conversationalAgent := some agent }
        let ev1 := ev0 ++ [KitEvent.privateKeyParsed pk,
                           KitEvent.signerConstructed signer,
                           KitEvent.agentConstructed,
                           KitEvent.agentInitStarted]
        match o.agentInitError with
        | some e => { state := k', events := ev1, result := Except.error e }
        | none => { state := k', events := ev1, result := Except.ok () }

/-- The result of one `processMessage` call: the promise outcome and the
call (if any) that was forwarded to the host conversational agent. -/
structure ProcessOutcome where
  result : Except String AgentResponse
  agentCall : Option (String × List ChatMessage)
  deriving Repr

/-- Embeds `StandardsKit.processMessage`; `respond` is the host agent's
`processMessage` behaviour. -/
def kitProcessMessage (k : KitState)
    (respond : String → List ChatMessage → AgentResponse)
    (message : String) (chatHistory : List ChatMessage) : ProcessOutcome :=
  match k.conversationalAgent with
  | none =>
    { result := Except.error "StandardsKit not initialized. Call initialize() first."
      agentCall := none }
  | some _ =>
    { result := Except.ok (respond message chatHistory)
      agentCall := some (message, chatHistory) }

/-- Embeds `StandardsKit.getConversationalAgent`. -/
def kitGetConversationalAgent (k : KitState) : Except String ConversationalAgentRef :=
  match k.conversationalAgent with
  | none => Except.error "StandardsKit not initialized. Call initialize() first."
  | some a => Except.ok a

end StandardsAgentPlugin

open StandardsAgentPlugin in
/-- C1: for every mirror-lookup result, the ECDSA parser is invoked with the
raw private-key string verbatim exactly when the returned key-type tag
contains the substring "ecdsa" in any letter case (i.e. its lower-cased form
contains "ecdsa"); every other result — absent account record, absent key
field, absent or non-matching tag — routes the same raw string to the
ED25519 parser. -/
theorem claim_C1 (accountInfo : Option MirrorAccountInfo) (privateKey : String) :
    (parsePrivateKey accountInfo privateKey).input = privateKey ∧
    ((parsePrivateKey accountInfo privateKey).parser = KeyParser.ecdsa ↔
      "ecdsa".toList <:+: (extractKeyType accountInfo).toLower.toList) ∧
    ((parsePrivateKey accountInfo privateKey).parser ≠ KeyParser.ecdsa →
      (parsePrivateKey accountInfo privateKey).parser = KeyParser.ed25519) := by
  refine ⟨rfl, selectKeyParser_eq_ecdsa_iff accountInfo, ?_⟩
  intro h
  cases hp : selectKeyParser accountInfo with
  | ecdsa => exact absurd hp h
  | ed25519 => exact hp

namespace StandardsAgentPlugin

@[simp] theorem mkStandardsKit_options (opts : StandardsKitOptions) :
    (mkStandardsKit opts).options = opts := rfl

@[simp] theorem mkStandardsKit_agent (opts : StandardsKitOptions) :
    (mkStandardsKit opts).conversationalAgent = none := rfl

@[simp] theorem mkStandardsKit_plugin (opts : StandardsKitOptions) :
    (mkStandardsKit opts).plugin = HostPlugin.ownOpenConvAI := rfl

@[simp] theorem mkStandardsKit_stateManager (opts : StandardsKitOptions) :
    (mkStandardsKit opts).stateManager =
      opts.stateManager.getD StateManagerRef.defaultNew := rfl

/-- Shorthand for the conversational agent that `kitInit` constructs on
the path that reaches agent construction (signer from the parsed key plus
the assembled configuration). -/
def builtAgent (k : KitState) (info : Option MirrorAccountInfo)
    (corePlugins : List HostPlugin) : ConversationalAgentRef :=
  { signer := { accountId := k.options.accountId,
                privateKeyInstance := parsePrivateKey info k.options.privateKey,
                network := k.options.network.getD "testnet" },
    config := assembleAgentConfig k.options k.plugin k.stateManager corePlugins }

/-- On the happy path up to agent construction (non-empty credentials,
mirror lookup resolved, key parse succeeded), `initialize` stores the
constructed conversational agent — built from the parsed key, the network
and the assembled configuration — regardless of whether the agent's own
`initialize()` then succeeds, because the field assignment precedes the
await in the source. -/
theorem kitInit_state_agent (k : KitState) (o : KitOracles)
    (info : Option MirrorAccountInfo)
    (hA : ¬ k.options.accountId = "") (hP : ¬ k.options.privateKey = "")
    (hm : o.mirrorResult = Except.ok info) (hk : o.keyParseError = none) :
    (kitInit k o).state =
      { k with conversationalAgent := some (builtAgent k info o.corePlugins) } := by
  rcases o with ⟨mr, kp, cp, ai⟩
  obtain rfl : mr = Except.ok info := hm
  obtain rfl : kp = none := hk
  cases ai <;>
    (unfold kitInit; dsimp only; rw [if_neg (fun h => h.elim hA hP)]; rfl)

end StandardsAgentPlugin

open StandardsAgentPlugin in
/-- C2: whenever `accountId` or `privateKey` is empty (or absent, which the
embedding folds into the empty string), `initialize()` rejects with the
configuration error before any externally observable step — in particular
before the mirror-node object is constructed or the account lookup is
issued — and leaves the instance untouched. -/
theorem claim_C2 (opts : StandardsKitOptions) (o : KitOracles)
    (h : opts.accountId = "" ∨ opts.privateKey = "") :
    (kitInit (mkStandardsKit opts) o).result =
        Except.error "Account ID and private key are required" ∧
    (kitInit (mkStandardsKit opts) o).events = [] ∧
    (kitInit (mkStandardsKit opts) o).state = mkStandardsKit opts := by
  unfold kitInit
  dsimp only [mkStandardsKit_options]
  rw [if_pos h]
  exact ⟨rfl, rfl, rfl⟩

namespace StandardsAgentPlugin

/-- Mirror record whose key-type tag is "ED25519". -/
def infoEd : Option MirrorAccountInfo :=
  some { key := some { keyTypeTag := some "ED25519" } }

/-- Options bag with both credentials empty. -/
def optsEmptyCreds : StandardsKitOptions :=
  { accountId := "", privateKey := "", network := none
    openAIApiKey := "sk-test", openAIModelName := none, verbose := none
    operationalMode := none, userAccountId := none
    customSystemMessagePreamble := none, customSystemMessagePostamble := none
    additionalPlugins := none, stateManager := none
    scheduleUserTransactionsInBytesMode := none, mirrorNodeConfig := none
    disableLogging := none }

/-- A well-formed options bag with one caller-supplied additional plugin. -/
def optsValid : StandardsKitOptions :=
  { accountId := "0.0.12345", privateKey := "ed25519-private-key"
    network := some "testnet", openAIApiKey := "sk-test"
    openAIModelName := none, verbose := none, operationalMode := none
    userAccountId := none, customSystemMessagePreamble := none
    customSystemMessagePostamble := none
    additionalPlugins := some [HostPlugin.externalRef 7], stateManager := none
    scheduleUserTransactionsInBytesMode := none, mirrorNodeConfig := none
    disableLogging := none }

/-- Like `optsValid` but with a caller-supplied non-empty preamble. -/
def optsCustomPreamble : StandardsKitOptions :=
  { optsValid with customSystemMessagePreamble := some "Stick to the facts." }

/-- Like `optsValid` but with the empty string supplied as the preamble. -/
def optsEmptyPreamble : StandardsKitOptions :=
  { optsValid with customSystemMessagePreamble := some "" }

/-- Oracle: lookup resolves to an ED25519 record, key parses, one core
plugin, agent initialization succeeds. -/
def oracleCore8 : KitOracles :=
  { mirrorResult := Except.ok infoEd, keyParseError := none
    corePlugins := [HostPlugin.externalRef 8], agentInitError := none }

/-- Oracle whose host-agent initialization rejects. -/
def oracleAgentInitFails : KitOracles :=
  { mirrorResult := Except.ok infoEd, keyParseError := none
    corePlugins := [], agentInitError := some "Agent bootstrap exploded" }

end StandardsAgentPlugin

open StandardsAgentPlugin in
/-- Witness for C2 at a concrete options bag with empty credentials. -/
theorem claim_C2_witness :
    (optsEmptyCreds.accountId = "" ∨ optsEmptyCreds.privateKey = "") ∧
    ((kitInit (mkStandardsKit optsEmptyCreds) oracleCore8).result =
        Except.error "Account ID and private key are required" ∧
      (kitInit (mkStandardsKit optsEmptyCreds) oracleCore8).events = [] ∧
      (kitInit (mkStandardsKit optsEmptyCreds) oracleCore8).state =
        mkStandardsKit optsEmptyCreds) :=
  ⟨Or.inl rfl, claim_C2 optsEmptyCreds oracleCore8 (Or.inl rfl)⟩

open StandardsAgentPlugin in
/-- C4: for every options bag that reaches configuration assembly, the
plugin list of the assembled configuration is exactly the kit's own
OpenConvAI plugin instance first, then the caller-supplied additional
plugins in their given order, then the host-runtime core plugins, in that
fixed order. -/
theorem claim_C4 (opts : StandardsKitOptions) (o : KitOracles)
    (info : Option MirrorAccountInfo)
    (hA : ¬ opts.accountId = "") (hP : ¬ opts.privateKey = "")
    (hm : o.mirrorResult = Except.ok info) (hk : o.keyParseError = none) :
    ((kitInit (mkStandardsKit opts) o).state.conversationalAgent).map
        (fun a => a.config.pluginConfig.plugins) =
      some (HostPlugin.ownOpenConvAI ::
        (opts.additionalPlugins.getD [] ++ o.corePlugins)) := by
  rw [kitInit_state_agent _ _ info hA hP hm hk]
  rfl

open StandardsAgentPlugin in
/-- Witness for C4 at a concrete run with one additional and one core
plugin. -/
theorem claim_C4_witness :
    ((kitInit (mkStandardsKit optsValid) oracleCore8).state.conversationalAgent).map
        (fun a => a.config.pluginConfig.plugins) =
      some [HostPlugin.ownOpenConvAI, HostPlugin.externalRef 7,
            HostPlugin.externalRef 8] :=
  claim_C4 optsValid oracleCore8 infoEd (by decide) (by decide) rfl rfl

open StandardsAgentPlugin in
/-- C5 (amended): for every caller-supplied NON-EMPTY
`customSystemMessagePreamble` string, the assembled configuration's
preamble field equals that string exactly — the built-in default is fully
replaced, never concatenated.  (A supplied empty string is falsy under the
source's `||` fallback and is replaced by the default; see the
counterexample.) -/
theorem claim_C5 (opts : StandardsKitOptions) (o : KitOracles)
    (info : Option MirrorAccountInfo) (s : String)
    (hA : ¬ opts.accountId = "") (hP : ¬ opts.privateKey = "")
    (hm : o.mirrorResult = Except.ok info) (hk : o.keyParseError = none)
    (hs : opts.customSystemMessagePreamble = some s) (hne : ¬ s = "") :
    ((kitInit (mkStandardsKit opts) o).state.conversationalAgent).map
        (fun a => a.config.customSystemMessagePreamble) = some s := by
  rw [kitInit_state_agent _ _ info hA hP hm hk]
  simp [builtAgent, assembleAgentConfig, hs, hne]

open StandardsAgentPlugin in
/-- Counterexample to C5 as stated: the caller-supplied preamble is the
empty string, yet the assembled configuration's preamble is the built-in
default (which embeds the account identifier), not the supplied string. -/
theorem claim_C5_cex :
    optsEmptyPreamble.customSystemMessagePreamble = some "" ∧
    ((kitInit (mkStandardsKit optsEmptyPreamble) oracleCore8).state.conversationalAgent).map
        (fun a => a.config.customSystemMessagePreamble) =
      some (defaultSystemMessage "0.0.12345") ∧
    ¬ defaultSystemMessage "0.0.12345" = "" :=
  ⟨rfl, rfl, by decide⟩

open StandardsAgentPlugin in
/-- Witness for the amended C5 at a concrete non-empty preamble. -/
theorem claim_C5_witness :
    optsCustomPreamble.customSystemMessagePreamble = some "Stick to the facts." ∧
    ((kitInit (mkStandardsKit optsCustomPreamble) oracleCore8).state.conversationalAgent).map
        (fun a => a.config.customSystemMessagePreamble) =
      some "Stick to the facts." :=
  ⟨rfl, claim_C5 optsCustomPreamble oracleCore8 infoEd "Stick to the facts."
    (by decide) (by decide) rfl rfl rfl (by decide)⟩

open StandardsAgentPlugin in
/-- C6 (amended): on every run that assembles a configuration, the four
conditionally-spread optional fields (`customSystemMessagePostamble`,
`scheduleUserTransactionsInBytesMode`, `mirrorNodeConfig`,
`disableLogging`) are present as keys exactly when they were supplied;
`userAccountId` is ALWAYS present as a key (holding `undefined` when not
supplied); and the unsupplied `openAIModelName`, `verbose`,
`operationalMode` and `customSystemMessagePreamble` receive explicit
defaults rather than being omitted. -/
theorem claim_C6 (opts : StandardsKitOptions) (o : KitOracles)
    (info : Option MirrorAccountInfo)
    (hA : ¬ opts.accountId = "") (hP : ¬ opts.privateKey = "")
    (hm : o.mirrorResult = Except.ok info) (hk : o.keyParseError = none) :
    ∃ cfg,
      ((kitInit (mkStandardsKit opts) o).state.conversationalAgent).map
          (fun a => a.config) = some cfg ∧
      cfg.customSystemMessagePostamble.isKeyPresent =
        opts.customSystemMessagePostamble.isSome ∧
      cfg.scheduleUserTransactionsInBytesMode.isKeyPresent =
        opts.scheduleUserTransactionsInBytesMode.isSome ∧
      cfg.mirrorNodeConfig.isKeyPresent = opts.mirrorNodeConfig.isSome ∧
      cfg.disableLogging.isKeyPresent = opts.disableLogging.isSome ∧
      cfg.userAccountId.isKeyPresent = true ∧
      (opts.userAccountId = none → cfg.userAccountId = JsField.presentUndefined) ∧
      (opts.openAIModelName = none → cfg.openAIModelName = "gpt-4o") ∧
      (opts.verbose = none → cfg.verbose = false) ∧
      (opts.operationalMode = none → cfg.operationalMode = "autonomous") ∧
      (opts.customSystemMessagePreamble = none →
        cfg.customSystemMessagePreamble = defaultSystemMessage opts.accountId) := by
  refine ⟨assembleAgentConfig opts HostPlugin.ownOpenConvAI
      (opts.stateManager.getD StateManagerRef.defaultNew) o.corePlugins,
    ?_, ?_, ?_, ?_, ?_, ?_, ?_, ?_, ?_, ?_, ?_⟩
  · rw [kitInit_state_agent _ _ info hA hP hm hk]
    rfl
  · cases h : opts.customSystemMessagePostamble <;>
      simp [assembleAgentConfig, JsField.ofSpread, JsField.isKeyPresent, h]
  · cases h : opts.scheduleUserTransactionsInBytesMode <;>
      simp [assembleAgentConfig, JsField.ofSpread, JsField.isKeyPresent, h]
  · cases h : opts.mirrorNodeConfig <;>
      simp [assembleAgentConfig, JsField.ofSpread, JsField.isKeyPresent, h]
  · cases h : opts.disableLogging <;>
      simp [assembleAgentConfig, JsField.ofSpread, JsField.isKeyPresent, h]
  · cases h : opts.userAccountId <;>
      simp [assembleAgentConfig, JsField.isKeyPresent, h]
  · intro h
    simp [assembleAgentConfig, h]
  · intro h
    simp [assembleAgentConfig, h]
  · intro h
    simp [assembleAgentConfig, h]
  · intro h
    simp [assembleAgentConfig, h]
  · intro h
    simp [assembleAgentConfig, h]

open StandardsAgentPlugin in
/-- Counterexample to C6 as stated: with `userAccountId` unsupplied, the
assembled configuration still carries the `userAccountId` key — holding
`undefined` — because the source writes the shorthand `userAccountId,`
unconditionally instead of a conditional spread. -/
theorem claim_C6_cex :
    optsValid.userAccountId = none ∧
    ((kitInit (mkStandardsKit optsValid) oracleCore8).state.conversationalAgent).map
        (fun a => a.config.userAccountId) = some JsField.presentUndefined ∧
    ¬ (JsField.presentUndefined : JsField String) = JsField.absent :=
  ⟨rfl, rfl, by decide⟩

open StandardsAgentPlugin in
/-- Witness for the amended C6 at a concrete run. -/
theorem claim_C6_witness :
    ∃ cfg,
      ((kitInit (mkStandardsKit optsValid) oracleCore8).state.conversationalAgent).map
          (fun a => a.config) = some cfg ∧
      cfg.userAccountId.isKeyPresent = true ∧
      cfg.disableLogging.isKeyPresent = optsValid.disableLogging.isSome := by
  obtain ⟨cfg, h1, _h2, _h3, _h4, h5, h6, _⟩ :=
    claim_C6 optsValid oracleCore8 infoEd (by decide) (by decide) rfl rfl
  exact ⟨cfg, h1, h6, h5⟩

open StandardsAgentPlugin in
/-- C7 (amended): `processMessage` rejects with the not-initialized error,
without invoking the host agent, exactly in the states where the
conversational agent has not been constructed (freshly constructed kit;
`initialize` rejected at the credential check, the mirror lookup or the
key parse), and `getConversationalAgent` throws the same error there;
once the agent is constructed, `processMessage` delegates verbatim and
returns the agent's response unmodified.  `initialize` failures occurring
AFTER agent construction (the host agent's own initialization rejecting)
leave the agent set — the source assigns the field before awaiting — so
they do not restore the not-initialized behaviour; see the
counterexample. -/
theorem claim_C7 (k : KitState)
    (respond : String → List ChatMessage → AgentResponse)
    (message : String) (history : List ChatMessage)
    (opts : StandardsKitOptions) (o : KitOracles) :
    (k.conversationalAgent = none →
      (kitProcessMessage k respond message history).result =
          Except.error "StandardsKit not initialized. Call initialize() first." ∧
      (kitProcessMessage k respond message history).agentCall = none ∧
      kitGetConversationalAgent k =
        Except.error "StandardsKit not initialized. Call initialize() first.") ∧
    (∀ a, k.conversationalAgent = some a →
      (kitProcessMessage k respond message history).result =
          Except.ok (respond message history) ∧
      (kitProcessMessage k respond message history).agentCall =
        some (message, history)) ∧
    (mkStandardsKit opts).conversationalAgent = none ∧
    (¬ (kitInit (mkStandardsKit opts) o).state.conversationalAgent = none ↔
      (¬ (opts.accountId = "" ∨ opts.privateKey = "") ∧
        (∃ i, o.mirrorResult = Except.ok i) ∧ o.keyParseError = none)) := by
  refine ⟨?_, ?_, rfl, ?_⟩
  · intro h
    simp [kitProcessMessage, kitGetConversationalAgent, h]
  · intro a h
    simp [kitProcessMessage, h]
  · constructor
    · intro hne
      by_cases hcred : opts.accountId = "" ∨ opts.privateKey = ""
      · exact absurd (by unfold kitInit; simp [hcred]) hne
      · rcases hm2 : o.mirrorResult with e | i
        · exact absurd (by unfold kitInit; simp [hcred, hm2]) hne
        · rcases hk2 : o.keyParseError with _ | e
          · exact ⟨hcred, ⟨i, rfl⟩, rfl⟩
          · exact absurd (by unfold kitInit; simp [hcred, hm2, hk2]) hne
    · rintro ⟨hcred, ⟨i, hm2⟩, hk2⟩
      rw [kitInit_state_agent _ _ i (fun h => hcred (Or.inl h))
        (fun h => hcred (Or.inr h)) hm2 hk2]
      simp

open StandardsAgentPlugin in
/-- Counterexample to C7 as stated: when the host agent's own
initialization rejects, `initialize()` rejects (so it has not completed
successfully), yet a subsequent `processMessage` does not reject with the
not-initialized error — it delegates to the already-constructed agent. -/
theorem claim_C7_cex :
    (kitInit (mkStandardsKit optsValid) oracleAgentInitFails).result =
        Except.error "Agent bootstrap exploded" ∧
    (kitProcessMessage (kitInit (mkStandardsKit optsValid) oracleAgentInitFails).state
        (fun _ _ => { output := "delegated" }) "hi" []).result =
      Except.ok { output := "delegated" } ∧
    (kitProcessMessage (kitInit (mkStandardsKit optsValid) oracleAgentInitFails).state
        (fun _ _ => { output := "delegated" }) "hi" []).agentCall =
      some ("hi", []) :=
  ⟨rfl, rfl, rfl⟩

open StandardsAgentPlugin in
/-- Witness for the amended C7: on a freshly constructed kit,
`processMessage` rejects with the not-initialized error and never reaches
the host agent. -/
theorem claim_C7_witness :
    (kitProcessMessage (mkStandardsKit optsValid)
        (fun _ _ => { output := "unreached" }) "hello" []).result =
        Except.error "StandardsKit not initialized. Call initialize() first." ∧
    (kitProcessMessage (mkStandardsKit optsValid)
        (fun _ _ => { output := "unreached" }) "hello" []).agentCall = none :=
  ((claim_C7 (mkStandardsKit optsValid) (fun _ _ => { output := "unreached" })
      "hello" [] optsValid oracleCore8).1 rfl).1 |>
    fun h1 =>
      ⟨h1, (((claim_C7 (mkStandardsKit optsValid)
        (fun _ _ => { output := "unreached" }) "hello" [] optsValid
        oracleCore8).1 rfl).2).1⟩

namespace StandardsAgentPlugin

/-! ## The OpenConvAI plugin (tool provider)

Embeds the `OpenConvAIPlugin` class of
`src/plugins/openconvai/OpenConvAIPlugin.ts`: the init/getTools/cleanup
lifecycle over an explicit plugin state, with the host-supplied context and
a throw oracle for the external tool constructors. -/

/-- The shared `HCS10Builder`, bound to the agent-kit handle and the state
manager. -/
structure HCS10Builder where
  hederaKit : HederaKitRef
  stateManager : StateManagerRef
  deriving DecidableEq, Repr

/-- One catalogue entry as the host runtime sees it.  `nspace` embeds the
tool's `namespace` property.  The entry records the constructor arguments
the plugin passes (`hederaKit` and the shared `hcs10Builder`; the logger is
not modelled). -/
structure Tool where
  name : String
  nspace : String
  hederaKit : HederaKitRef
  builder : HCS10Builder
  deriving DecidableEq, Repr

/-- The plugin's own `namespace` property (`'openconvai'` in the source). -/
def pluginNamespaceTag : String := "openconvai"

/-- Modelled from the spec: the eleven tool classes
(`RegisterAgentTool` … `ListUnapprovedConnectionRequestsTool`) live in the
external `@hashgraphonline/standards-agent-kit`, not in this repository.
Their entry names and their shared "hcs10" namespace tag are taken from the
spec's catalogue-membership sentence and from the repository's own unit
tests (`tests/unit/*.test.ts`, which assert the eleven snake_case names and
`tool.namespace === 'hcs10'`).  The construction order, the single shared
builder and the constructor arguments embed the body of the private
`initializeTools` method of the source. -/
def mkToolCatalogue (kit : HederaKitRef) (sm : StateManagerRef) : List Tool :=
  let b : HCS10Builder := { hederaKit := kit, stateManager := sm }
  [ { name := "register_agent", nspace := "hcs10", hederaKit := kit, builder := b },
    { name := "find_registrations", nspace := "hcs10", hederaKit := kit, builder := b },
    { name := "retrieve_profile", nspace := "hcs10", hederaKit := kit, builder := b },
    { name := "initiate_connection", nspace := "hcs10", hederaKit := kit, builder := b },
    { name := "list_connections", nspace := "hcs10", hederaKit := kit, builder := b },
    { name := "send_message_to_connection", nspace := "hcs10", hederaKit := kit, builder := b },
    { name := "check_messages", nspace := "hcs10", hederaKit := kit, builder := b },
    { name := "monitor_connections", nspace := "hcs10", hederaKit := kit, builder := b },
    { name := "manage_connection_requests", nspace := "hcs10", hederaKit := kit, builder := b },
    { name := "accept_connection_request", nspace := "hcs10", hederaKit := kit, builder := b },
    { name := "list_unapproved_connection_requests", nspace := "hcs10", hederaKit := kit, builder := b } ]

/-- The `config` bag of the host-supplied plugin context. -/
structure PluginConfigBag where
  hederaKit : Option HederaKitRef
  deriving DecidableEq, Repr

/-- The host-supplied `GenericPluginContext` (logger not modelled; log
output is returned explicitly instead). -/
structure PluginContext where
  config : PluginConfigBag
  stateManager : Option StateManagerRef
  deriving DecidableEq, Repr

/-- One logger call made by the plugin. -/
inductive LogEvent where
  | warnLog (msg : String)
  | infoLog (msg : String)
  | errorLog (msg : String) (err : String)
  deriving DecidableEq, Repr

/-- The mutable fields of an `OpenConvAIPlugin` instance. -/
structure PluginState where
  context : Option PluginContext
  stateManager : Option StateManagerRef
  tools : List Tool
  deriving DecidableEq, Repr

/-- A freshly constructed plugin: no context, no state manager, empty
catalogue. -/
def freshPlugin : PluginState :=
  { context := none, stateManager := none, tools := [] }

/-- Embeds the private `initializeTools` method: it throws (returns
`Except.error`) if the state manager or the agent-kit handle is missing,
and otherwise builds the catalogue from one shared builder.  `extThrow`
is an oracle for a throw inside the external tool/builder constructors. -/
def initTools (p : PluginState) (extThrow : Option String) :
    Except String (List Tool) :=
  match p.stateManager with
  | none => Except.error "StateManager must be initialized before creating tools"
  | some sm =>
    match p.context.bind (fun c => c.config.hederaKit) with
    | none => Except.error "HederaKit not found in context config"
    | some kit =>
      match extThrow with
      | some e => Except.error e
      | none => Except.ok (mkToolCatalogue kit sm)

/-- Embeds `OpenConvAIPlugin.initialize(context)`.  The source's try/catch
is embedded by mapping the `Except.error` outcome of `initTools` to a
normal return: the embedding is a total function returning the new state
and the log output, so a tool-construction failure is logged and absorbed,
never propagated. -/
def pluginInit (p : PluginState) (ctx : PluginContext)
    (extThrow : Option String) : PluginState × List LogEvent :=
  let p1 : PluginState := { p with context := some ctx }
  match ctx.config.hederaKit with
  | none =>
    (p1, [LogEvent.warnLog
      "HederaKit not found in context. OpenConvAI tools will not be available."])
  | some _ =>
    let p2 : PluginState :=
      { p1 with stateManager := some (ctx.stateManager.getD StateManagerRef.defaultNew) }
    match initTools p2 extThrow with
    | Except.error e =>
      (p2, [LogEvent.errorLog "Failed to initialize OpenConvAI plugin:" e])
    | Except.ok ts =>
      ({ p2 with tools := ts },
       [LogEvent.infoLog "OpenConvAI Standards Agent Kit Plugin initialized successfully"])

/-- Embeds `OpenConvAIPlugin.getTools()`. -/
def pluginGetTools (p : PluginState) : List Tool := p.tools

/-- Embeds `OpenConvAIPlugin.getStateManager()`. -/
def pluginGetStateManager (p : PluginState) : Option StateManagerRef :=
  p.stateManager

/-- Embeds `OpenConvAIPlugin.cleanup()`: empties the catalogue, deletes the
state-manager reference, and logs (when a context is present). -/
def pluginCleanup (p : PluginState) : PluginState × List LogEvent :=
  ({ p with tools := [], stateManager := none },
   if p.context.isSome then
     [LogEvent.infoLog "OpenConvAI Standards Agent Kit Plugin cleaned up"]
   else [])

/-- A lifecycle operation the host runtime may perform on the plugin. -/
inductive PluginOp where
  | opInit (ctx : PluginContext) (extThrow : Option String)
  | opCleanup
  deriving DecidableEq, Repr

/-- One lifecycle step (log output discarded). -/
def pluginStep (p : PluginState) : PluginOp → PluginState
  | PluginOp.opInit ctx extThrow => (pluginInit p ctx extThrow).1
  | PluginOp.opCleanup => (pluginCleanup p).1

/-- A sequence of lifecycle steps from a given state. -/
def pluginRun (p : PluginState) (ops : List PluginOp) : PluginState :=
  ops.foldl pluginStep p

/-- Whether an operation is an `initialize` call that successfully builds
the catalogue (agent-kit handle present and no internal throw). -/
def PluginOp.buildsTools : PluginOp → Bool
  | PluginOp.opInit ctx extThrow => ctx.config.hederaKit.isSome && extThrow.isNone
  | PluginOp.opCleanup => false

/-- Whether an operation is an `initialize` call that assigns the
state-manager field (agent-kit handle present; the assignment precedes any
internal throw in the source). -/
def PluginOp.setsStateManager : PluginOp → Bool
  | PluginOp.opInit ctx _ => ctx.config.hederaKit.isSome
  | PluginOp.opCleanup => false

theorem pluginStep_tools_empty (p : PluginState) (op : PluginOp)
    (hp : p.tools = []) (hop : op.buildsTools = false) :
    (pluginStep p op).tools = [] := by
  cases op with
  | opCleanup => rfl
  | opInit ctx extThrow =>
    cases hkit : ctx.config.hederaKit with
    | none => simp [pluginStep, pluginInit, hkit, hp]
    | some kit =>
      cases hext : extThrow with
      | some e => simp [pluginStep, pluginInit, initTools, hkit, hext, hp]
      | none =>
        exfalso
        simp [PluginOp.buildsTools, hkit, hext] at hop

theorem pluginRun_tools_empty (p : PluginState) (ops : List PluginOp)
    (hp : p.tools = []) (hops : ∀ op ∈ ops, op.buildsTools = false) :
    (pluginRun p ops).tools = [] := by
  induction ops generalizing p with
  | nil => exact hp
  | cons op ops ih =>
    exact ih (pluginStep p op)
      (pluginStep_tools_empty p op hp (hops op (by simp)))
      (fun o ho => hops o (by simp [ho]))

theorem pluginStep_sm_none (p : PluginState) (op : PluginOp)
    (hp : p.stateManager = none) (hop : op.setsStateManager = false) :
    (pluginStep p op).stateManager = none := by
  cases op with
  | opCleanup => rfl
  | opInit ctx extThrow =>
    cases hkit : ctx.config.hederaKit with
    | none => simp [pluginStep, pluginInit, hkit, hp]
    | some kit =>
      exfalso
      simp [PluginOp.setsStateManager, hkit] at hop

theorem pluginRun_sm_none (p : PluginState) (ops : List PluginOp)
    (hp : p.stateManager = none) (hops : ∀ op ∈ ops, op.setsStateManager = false) :
    (pluginRun p ops).stateManager = none := by
  induction ops generalizing p with
  | nil => exact hp
  | cons op ops ih =>
    exact ih (pluginStep p op)
      (pluginStep_sm_none p op hp (hops op (by simp)))
      (fun o ho => hops o (by simp [ho]))

/-- Context carrying an agent-kit handle (id 5) and no state manager. -/
def ctxKit5 : PluginContext :=
  { config := { hederaKit := some 5 }, stateManager := none }

/-- Context without an agent-kit handle. -/
def ctxNoKit : PluginContext :=
  { config := { hederaKit := none }, stateManager := none }

end StandardsAgentPlugin

open StandardsAgentPlugin in
/-- C3 (amended): after a plugin `initialize` with an agent-kit handle in
the context (and no internal throw), the catalogue holds exactly the
eleven entries in source order, with pairwise distinct names, all sharing
the single namespace tag "hcs10" — which is NOT the plugin's own
`namespace` property "openconvai" — and every entry is constructed from
the one shared `HCS10Builder` bound to the agent-kit handle and the
resolved state manager (context-supplied, else the fresh default). -/
theorem claim_C3 (ctx : PluginContext) (kit : HederaKitRef)
    (hk : ctx.config.hederaKit = some kit) :
    (pluginInit freshPlugin ctx none).1.tools.map Tool.name =
      ["register_agent", "find_registrations", "retrieve_profile",
       "initiate_connection", "list_connections", "send_message_to_connection",
       "check_messages", "monitor_connections", "manage_connection_requests",
       "accept_connection_request", "list_unapproved_connection_requests"] ∧
    (pluginInit freshPlugin ctx none).1.tools.length = 11 ∧
    ((pluginInit freshPlugin ctx none).1.tools.map Tool.name).Nodup ∧
    (∀ t ∈ (pluginInit freshPlugin ctx none).1.tools, t.nspace = "hcs10") ∧
    (∀ t ∈ (pluginInit freshPlugin ctx none).1.tools,
      t.builder = { hederaKit := kit,
                    stateManager := ctx.stateManager.getD StateManagerRef.defaultNew } ∧
      t.hederaKit = kit) ∧
    pluginNamespaceTag = "openconvai" := by
  have htools : (pluginInit freshPlugin ctx none).1.tools =
      mkToolCatalogue kit (ctx.stateManager.getD StateManagerRef.defaultNew) := by
    simp [pluginInit, initTools, freshPlugin, hk]
  rw [htools]
  have hnames :
      (mkToolCatalogue kit (ctx.stateManager.getD StateManagerRef.defaultNew)).map
          Tool.name =
        ["register_agent", "find_registrations", "retrieve_profile",
         "initiate_connection", "list_connections", "send_message_to_connection",
         "check_messages", "monitor_connections", "manage_connection_requests",
         "accept_connection_request", "list_unapproved_connection_requests"] := rfl
  refine ⟨hnames, rfl, by rw [hnames]; decide, ?_, ?_, rfl⟩
  · intro t ht
    simp only [mkToolCatalogue, List.mem_cons, List.not_mem_nil, or_false] at ht
    rcases ht with rfl | rfl | rfl | rfl | rfl | rfl | rfl | rfl | rfl | rfl | rfl <;> rfl
  · intro t ht
    simp only [mkToolCatalogue, List.mem_cons, List.not_mem_nil, or_false] at ht
    rcases ht with rfl | rfl | rfl | rfl | rfl | rfl | rfl | rfl | rfl | rfl | rfl <;>
      exact ⟨rfl, rfl⟩

open StandardsAgentPlugin in
/-- Counterexample to C3 as stated: the catalogue entries do not carry the
plugin's own namespace tag — every entry's namespace is "hcs10" while the
plugin's `namespace` property is "openconvai". -/
theorem claim_C3_cex :
    ¬ (∀ t ∈ (pluginInit freshPlugin ctxKit5 none).1.tools,
        t.nspace = pluginNamespaceTag) := by
  decide

open StandardsAgentPlugin in
/-- Witness for the amended C3 at a concrete context. -/
theorem claim_C3_witness :
    (pluginInit freshPlugin ctxKit5 none).1.tools.length = 11 ∧
    (∀ t ∈ (pluginInit freshPlugin ctxKit5 none).1.tools, t.nspace = "hcs10") := by
  obtain ⟨_hnames, hlen, _hnodup, hns, _hb, _hpn⟩ := claim_C3 ctxKit5 5 rfl
  exact ⟨hlen, hns⟩

open StandardsAgentPlugin in
/-- C8: `getTools` is empty in every state reachable from a fresh plugin
without a catalogue-building `initialize` (handle present and no internal
throw); `cleanup` empties the catalogue and releases the state-manager
reference; and after a `cleanup`, any further operations that do not
successfully re-initialize leave `getTools` empty. -/
theorem claim_C8 :
    (∀ ops : List PluginOp, (∀ op ∈ ops, op.buildsTools = false) →
      pluginGetTools (pluginRun freshPlugin ops) = []) ∧
    (∀ p : PluginState,
      pluginGetTools (pluginStep p PluginOp.opCleanup) = [] ∧
      pluginGetStateManager (pluginStep p PluginOp.opCleanup) = none) ∧
    (∀ (p : PluginState) (ops : List PluginOp),
      (∀ op ∈ ops, op.buildsTools = false) →
      pluginGetTools (pluginRun (pluginStep p PluginOp.opCleanup) ops) = []) := by
  refine ⟨?_, ?_, ?_⟩
  · intro ops h
    exact pluginRun_tools_empty _ _ rfl h
  · intro p
    exact ⟨rfl, rfl⟩
  · intro p ops h
    exact pluginRun_tools_empty _ _ rfl h

open StandardsAgentPlugin in
/-- Witness for C8: a concrete trace — failed initialize (no handle), then
cleanup, then another failed initialize — leaves the catalogue empty. -/
theorem claim_C8_witness :
    pluginGetTools (pluginRun freshPlugin
      [PluginOp.opInit ctxNoKit none, PluginOp.opCleanup,
       PluginOp.opInit ctxKit5 (some "boom")]) = [] :=
  claim_C8.1
    [PluginOp.opInit ctxNoKit none, PluginOp.opCleanup,
     PluginOp.opInit ctxKit5 (some "boom")]
    (by decide)

open StandardsAgentPlugin in
/-- C9: the plugin's `initialize` never propagates a failure: with the
agent-kit handle absent it logs the warning and returns with the catalogue
untouched (empty when starting empty), and when catalogue construction
throws internally the error is caught and logged and the function still
returns normally with the catalogue untouched. -/
theorem claim_C9 (p : PluginState) (ctx : PluginContext)
    (extThrow : Option String) :
    (ctx.config.hederaKit = none →
      pluginInit p ctx extThrow =
        ({ p with context := some ctx },
         [LogEvent.warnLog
           "HederaKit not found in context. OpenConvAI tools will not be available."])) ∧
    (∀ kit e, ctx.config.hederaKit = some kit → extThrow = some e →
      (pluginInit p ctx extThrow).1.tools = p.tools ∧
      (pluginInit p ctx extThrow).2 =
        [LogEvent.errorLog "Failed to initialize OpenConvAI plugin:" e]) := by
  constructor
  · intro h
    simp [pluginInit, h]
  · intro kit e hk he
    subst he
    constructor
    · simp [pluginInit, initTools, hk]
    · simp [pluginInit, initTools, hk]

open StandardsAgentPlugin in
/-- Witness for C9 at concrete contexts: the no-handle warning case and
the internal-throw case both return normally with an empty catalogue. -/
theorem claim_C9_witness :
    (pluginInit freshPlugin ctxNoKit none =
      ({ freshPlugin with context := some ctxNoKit },
       [LogEvent.warnLog
         "HederaKit not found in context. OpenConvAI tools will not be available."])) ∧
    ((pluginInit freshPlugin ctxKit5 (some "tool constructor exploded")).1.tools = [] ∧
      (pluginInit freshPlugin ctxKit5 (some "tool constructor exploded")).2 =
        [LogEvent.errorLog "Failed to initialize OpenConvAI plugin:"
          "tool constructor exploded"]) :=
  ⟨(claim_C9 freshPlugin ctxNoKit none).1 rfl,
   (claim_C9 freshPlugin ctxKit5 (some "tool constructor exploded")).2
     5 "tool constructor exploded" rfl rfl⟩

open StandardsAgentPlugin in
/-- C10 (amended): `getStateManager` returns `undefined` on a fresh
plugin, after any trace containing no `initialize` with an agent-kit
handle, and immediately after `cleanup` (and it stays `undefined` under
further handle-less operations); every `initialize` with the handle
present — even one whose internal catalogue construction then throws —
assigns the state manager (the context-supplied one if present, otherwise
the freshly constructed default), which `getStateManager` then returns
until `cleanup`. -/
theorem claim_C10 :
    pluginGetStateManager freshPlugin = none ∧
    (∀ ops : List PluginOp, (∀ op ∈ ops, op.setsStateManager = false) →
      pluginGetStateManager (pluginRun freshPlugin ops) = none) ∧
    (∀ (p : PluginState) (ctx : PluginContext) (kit : HederaKitRef)
        (extThrow : Option String),
      ctx.config.hederaKit = some kit →
      pluginGetStateManager (pluginStep p (PluginOp.opInit ctx extThrow)) =
        some (ctx.stateManager.getD StateManagerRef.defaultNew)) ∧
    (∀ p : PluginState,
      pluginGetStateManager (pluginStep p PluginOp.opCleanup) = none) ∧
    (∀ (p : PluginState) (ops : List PluginOp),
      (∀ op ∈ ops, op.setsStateManager = false) →
      pluginGetStateManager (pluginRun (pluginStep p PluginOp.opCleanup) ops) = none) := by
  refine ⟨rfl, ?_, ?_, ?_, ?_⟩
  · intro ops h
    exact pluginRun_sm_none _ _ rfl h
  · intro p ctx kit extThrow hk
    cases hext : extThrow with
    | none => simp [pluginStep, pluginInit, initTools, hk, pluginGetStateManager]
    | some e => simp [pluginStep, pluginInit, initTools, hk, pluginGetStateManager]
  · intro p
    rfl
  · intro p ops h
    exact pluginRun_sm_none _ _ rfl h

open StandardsAgentPlugin in
/-- Counterexample to C10 as stated: an `initialize` whose internal
catalogue construction throws is not a successful initialization (it logs
the failure and builds no tools), yet `getStateManager` afterwards returns
the freshly constructed default state manager rather than `undefined`,
because the source assigns the field before calling `initializeTools`. -/
theorem claim_C10_cex :
    (pluginInit freshPlugin ctxKit5 (some "tool constructor exploded")).1.tools = [] ∧
    (pluginInit freshPlugin ctxKit5 (some "tool constructor exploded")).2 =
      [LogEvent.errorLog "Failed to initialize OpenConvAI plugin:"
        "tool constructor exploded"] ∧
    pluginGetStateManager
        (pluginInit freshPlugin ctxKit5 (some "tool constructor exploded")).1 =
      some StateManagerRef.defaultNew :=
  ⟨rfl, rfl, rfl⟩

open StandardsAgentPlugin in
/-- Witness for the amended C10: a fresh plugin and a handle-less
initialize both leave `getStateManager` at `undefined`, and a cleanup
after a successful initialize resets it. -/
theorem claim_C10_witness :
    pluginGetStateManager (pluginRun freshPlugin [PluginOp.opInit ctxNoKit none]) = none ∧
    pluginGetStateManager (pluginStep freshPlugin PluginOp.opCleanup) = none :=
  ⟨claim_C10.2.1 [PluginOp.opInit ctxNoKit none] (by decide),
    claim_C10.2.2.2.1 freshPlugin⟩
